import Mathlib

/-!
Shallow embedding of the theme-font-toggle plugin (the `ThemeFontToggle`
class of the main plugin file, and the Chrome-extension content script's
message listener), together with theorems settling the specification
claims about them.

Conventions of the embedding:
- JavaScript strings are `String`; `null`/`undefined` readings are `Option String`.
- `localStorage` is a `Store`: an availability flag (`false` models every
  access throwing) plus an association list; `setItem` shadows by consing.
- DOM elements bound as controls are `DomElement`s carrying their `value`
  property and the list of registered change listeners; listener identity
  matters (the class registers anonymous arrow functions but `destroy`
  passes the bound methods to `removeEventListener`), so listeners are
  named by `ListenerRef` tags.
- `document.documentElement`'s data attributes form a `Doc`; every
  StyleApplicator invocation is also recorded in `applyLog` so claims
  about "the applicator was invoked" are expressible even when the
  attribute value does not change.
- `dispatchEvent` appends to a chronological `events` list.
-/

namespace ThemeFontToggle

/-- The three preference dimensions: theme, font, fontSize. -/
inductive Dimension
  | theme
  | font
  | fontSize
deriving DecidableEq, Repr

/-- The configuration accepted by the constructor (options merged over
defaults). `storagePfx` embeds the `storagePrefix` option. -/
structure Config where
  storagePfx : String
  defaultTheme : String
  defaultFont : String
  defaultFontSize : String
  autoDetectSystemTheme : Bool
deriving DecidableEq, Repr

/-- A full preference triple, as returned by `getSettings()`. -/
structure Triple where
  theme : String
  font : String
  fontSize : String
deriving DecidableEq, Repr

/-- The `storageKeys` record built in the constructor:
`{prefix}-theme`, `{prefix}-font`, `{prefix}-font-size`. -/
def storageKeys (cfg : Config) : Dimension → String
  | Dimension.theme => cfg.storagePfx ++ "-theme"
  | Dimension.font => cfg.storagePfx ++ "-font"
  | Dimension.fontSize => cfg.storagePfx ++ "-font-size"

/-- The configured default for a dimension. -/
def defaultFor (cfg : Config) : Dimension → String
  | Dimension.theme => cfg.defaultTheme
  | Dimension.font => cfg.defaultFont
  | Dimension.fontSize => cfg.defaultFontSize

/-- `localStorage`: `available = false` models every access throwing
(the try/catch paths of `getStoredValue`/`setStoredValue`). -/
structure Store where
  available : Bool
  data : List (String × String)
deriving DecidableEq, Repr

/-- `localStorage.getItem` wrapped in `getStoredValue`'s try/catch:
`null` (here `none`) when the store throws or the key is absent. -/
def Store.getItem (s : Store) (k : String) : Option String :=
  if s.available then s.data.lookup k else none

/-- `localStorage.setItem` wrapped in `setStoredValue`'s try/catch:
a no-op when the store throws. -/
def Store.setItem (s : Store) (k v : String) : Store :=
  if s.available then { s with data := (k, v) :: s.data } else s

/-- `getStoredValue(key)`: read the dimension's storage key. -/
def getStoredValue (cfg : Config) (s : Store) (d : Dimension) : Option String :=
  s.getItem (storageKeys cfg d)

/-- `setStoredValue(key, value)`: write the dimension's storage key. -/
def setStoredValue (cfg : Config) (s : Store) (d : Dimension) (v : String) : Store :=
  s.setItem (storageKeys cfg d) v

/-- JavaScript `x || dflt` on a nullable string: `null` and the empty
string (the only falsy string) fall back to the default. -/
def jsOr : Option String → String → String
  | none, dflt => dflt
  | some v, dflt => if v = "" then dflt else v

/-- `loadPreferences()`: stored value per dimension if present and
non-empty, else the configured default. -/
def loadPreferences (cfg : Config) (s : Store) : Triple :=
  { theme := jsOr (getStoredValue cfg s Dimension.theme) cfg.defaultTheme
    font := jsOr (getStoredValue cfg s Dimension.font) cfg.defaultFont
    fontSize := jsOr (getStoredValue cfg s Dimension.fontSize) cfg.defaultFontSize }

/-- Identity tags for change listeners on the control elements: the
anonymous arrow functions registered by `setupEventListeners`, and the
bound class methods that `destroy` passes to `removeEventListener`. -/
inductive ListenerRef
  | arrowTheme
  | arrowFont
  | arrowFontSize
  | methodSetTheme
  | methodSetFont
  | methodSetFontSize
deriving DecidableEq, Repr

/-- A control element: its `value` property and its registered change
listeners. The element outlives the controller's reference to it. -/
structure DomElement where
  value : String
  listeners : List ListenerRef
deriving DecidableEq, Repr

/-- `document.documentElement`'s data attributes. -/
structure Doc where
  dataTheme : Option String
  dataFont : Option String
  dataFontSize : Option String
deriving DecidableEq, Repr

/-- The custom events dispatched via `dispatchEvent`, each carrying the
detail triple it was dispatched with. -/
inductive Event
  | initialized (t : Triple)
  | themeChanged (t : Triple)
  | fontChanged (t : Triple)
  | fontSizeChanged (t : Triple)
  | reset (t : Triple)
  | storageCleared (t : Triple)
  | destroyed (t : Triple)
deriving DecidableEq, Repr

/-- The `<dim>Changed` event for a dimension. -/
def changedEvent : Dimension → Triple → Event
  | Dimension.theme => Event.themeChanged
  | Dimension.font => Event.fontChanged
  | Dimension.fontSize => Event.fontSizeChanged

/-- The whole observable state: the plugin instance's fields
(`current*`, the selector references, config), plus the environment it
mutates (control elements, localStorage, document attributes) and the
instrumentation traces (applicator invocations, dispatched events).
`themeRef` is whether `this.themeSelector` is non-null; the element
itself lives in `themeEl` (it persists when the reference is cleared). -/
structure ControllerState where
  config : Config
  currentTheme : String
  currentFont : String
  currentFontSize : String
  themeEl : Option DomElement
  fontEl : Option DomElement
  fontSizeEl : Option DomElement
  themeRef : Bool
  fontRef : Bool
  fontSizeRef : Bool
  systemListenerActive : Bool
  store : Store
  doc : Doc
  applyLog : List (Dimension × String)
  events : List Event
deriving DecidableEq, Repr

/-- `getSettings()`. -/
def ControllerState.settings (st : ControllerState) : Triple :=
  { theme := st.currentTheme, font := st.currentFont, fontSize := st.currentFontSize }

/-- `getTheme()` / `getFont()` / `getFontSize()`, indexed by dimension. -/
def getDimension (st : ControllerState) : Dimension → String
  | Dimension.theme => st.currentTheme
  | Dimension.font => st.currentFont
  | Dimension.fontSize => st.currentFontSize

/-- `dispatchEvent(name, detail)`: append to the event log. -/
def dispatchEvent (st : ControllerState) (e : Event) : ControllerState :=
  { st with events := st.events ++ [e] }

/-- `applyTheme(theme)`: set `data-theme` on the document element
(and record the applicator invocation). -/
def applyTheme (st : ControllerState) (v : String) : ControllerState :=
  { st with doc := { st.doc with dataTheme := some v }
            applyLog := st.applyLog ++ [(Dimension.theme, v)] }

/-- `applyFont(font)`: set `data-font` on the document element. -/
def applyFont (st : ControllerState) (v : String) : ControllerState :=
  { st with doc := { st.doc with dataFont := some v }
            applyLog := st.applyLog ++ [(Dimension.font, v)] }

/-- `applyFontSize(fontSize)`: set `data-font-size` on the document element. -/
def applyFontSize (st : ControllerState) (v : String) : ControllerState :=
  { st with doc := { st.doc with dataFontSize := some v }
            applyLog := st.applyLog ++ [(Dimension.fontSize, v)] }

/-- `updateSelector`'s effect on an element: write `value` only when it
differs. -/
def updateValue (el : Option DomElement) (v : String) : Option DomElement :=
  match el with
  | some e => if e.value ≠ v then some { e with value := v } else some e
  | none => none

/-- `updateSelector(this.themeSelector, value)`: a no-op when the
reference is null. -/
def updateThemeSelector (st : ControllerState) (v : String) : ControllerState :=
  { st with themeEl := if st.themeRef then updateValue st.themeEl v else st.themeEl }

/-- `updateSelector(this.fontSelector, value)`. -/
def updateFontSelector (st : ControllerState) (v : String) : ControllerState :=
  { st with fontEl := if st.fontRef then updateValue st.fontEl v else st.fontEl }

/-- `updateSelector(this.fontSizeSelector, value)`. -/
def updateFontSizeSelector (st : ControllerState) (v : String) : ControllerState :=
  { st with fontSizeEl := if st.fontSizeRef then updateValue st.fontSizeEl v else st.fontSizeEl }

/-- `setTheme(theme)`: update state, persist, apply, resync control,
dispatch `themeChanged` with the full triple. -/
def setTheme (st : ControllerState) (v : String) : ControllerState :=
  let st1 := { st with currentTheme := v }
  let st2 := { st1 with store := setStoredValue st1.config st1.store Dimension.theme v }
  let st3 := applyTheme st2 v
  let st4 := updateThemeSelector st3 v
  dispatchEvent st4 (Event.themeChanged
    { theme := v, font := st4.currentFont, fontSize := st4.currentFontSize })

/-- `setFont(font)`. -/
def setFont (st : ControllerState) (v : String) : ControllerState :=
  let st1 := { st with currentFont := v }
  let st2 := { st1 with store := setStoredValue st1.config st1.store Dimension.font v }
  let st3 := applyFont st2 v
  let st4 := updateFontSelector st3 v
  dispatchEvent st4 (Event.fontChanged
    { theme := st4.currentTheme, font := v, fontSize := st4.currentFontSize })

/-- `setFontSize(fontSize)`. -/
def setFontSize (st : ControllerState) (v : String) : ControllerState :=
  let st1 := { st with currentFontSize := v }
  let st2 := { st1 with store := setStoredValue st1.config st1.store Dimension.fontSize v }
  let st3 := applyFontSize st2 v
  let st4 := updateFontSizeSelector st3 v
  dispatchEvent st4 (Event.fontSizeChanged
    { theme := st4.currentTheme, font := st4.currentFont, fontSize := v })

/-- The spec's `setDimension(dim, value)`: all three setters behind one
dimension-indexed entry point. -/
def setDimension (st : ControllerState) : Dimension → String → ControllerState
  | Dimension.theme, v => setTheme st v
  | Dimension.font, v => setFont st v
  | Dimension.fontSize, v => setFontSize st v

/-- The displayed value of the control bound for a dimension, when the
controller holds a reference to one. -/
def boundControlValue (st : ControllerState) : Dimension → Option String
  | Dimension.theme => if st.themeRef then st.themeEl.map DomElement.value else none
  | Dimension.font => if st.fontRef then st.fontEl.map DomElement.value else none
  | Dimension.fontSize => if st.fontSizeRef then st.fontSizeEl.map DomElement.value else none

/-- `reset()`: three sequential setters to the defaults, then one
aggregate `reset` event with `getSettings()`. -/
def reset (st : ControllerState) : ControllerState :=
  let st1 := setTheme st st.config.defaultTheme
  let st2 := setFont st1 st1.config.defaultFont
  let st3 := setFontSize st2 st2.config.defaultFontSize
  dispatchEvent st3 (Event.reset st3.settings)

/-- The media-query change handler installed by
`setupSystemThemeListener`, fired by a system theme-preference signal:
runs only while registered; re-applies the theme iff the current theme
is exactly `auto`; dispatches nothing. -/
def systemThemeSignal (st : ControllerState) : ControllerState :=
  if st.systemListenerActive then
    if st.currentTheme = "auto" then applyTheme st "auto" else st
  else st

/-- `addEventListener('change', f)` on a (possibly absent) element. -/
def addListener (el : Option DomElement) (r : ListenerRef) : Option DomElement :=
  el.map (fun e => { e with listeners := e.listeners ++ [r] })

/-- `removeEventListener('change', f)`: removes only a listener that is
the very same function object. -/
def removeListener (el : Option DomElement) (r : ListenerRef) : Option DomElement :=
  el.map (fun e => { e with listeners := e.listeners.filter (fun l => l ≠ r) })

/-- `setupEventListeners()`: registers the anonymous arrow handlers on
whichever control elements are present. -/
def setupEventListeners (st : ControllerState) : ControllerState :=
  { st with themeEl := addListener st.themeEl ListenerRef.arrowTheme
            fontEl := addListener st.fontEl ListenerRef.arrowFont
            fontSizeEl := addListener st.fontSizeEl ListenerRef.arrowFontSize }

/-- `applySettings()`: re-apply the full current triple and resync all
bound controls. -/
def applySettings (st : ControllerState) : ControllerState :=
  let st1 := applyTheme st st.currentTheme
  let st2 := applyFont st1 st1.currentFont
  let st3 := applyFontSize st2 st2.currentFontSize
  let st4 := updateThemeSelector st3 st3.currentTheme
  let st5 := updateFontSelector st4 st4.currentFont
  updateFontSizeSelector st5 st5.currentFontSize

/-- Construction (`constructor` + `setup()` once the DOM is ready): query
the selectors, load preferences, register listeners, subscribe to the
system theme signal when configured, apply the initial settings, dispatch
`initialized`. -/
def setup (cfg : Config) (store : Store) (doc0 : Doc)
    (tEl fEl sEl : Option DomElement) : ControllerState :=
  let t := loadPreferences cfg store
  let st : ControllerState :=
    { config := cfg
      currentTheme := t.theme
      currentFont := t.font
      currentFontSize := t.fontSize
      themeEl := tEl
      fontEl := fEl
      fontSizeEl := sEl
      themeRef := tEl.isSome
      fontRef := fEl.isSome
      fontSizeRef := sEl.isSome
      systemListenerActive := cfg.autoDetectSystemTheme
      store := store
      doc := doc0
      applyLog := []
      events := [] }
  let st1 := setupEventListeners st
  let st2 := applySettings st1
  dispatchEvent st2 (Event.initialized st2.settings)

/-- `destroy()`: `removeEventListener('change', this.setTheme)` (and the
font/fontSize analogues) on each still-referenced control, clear the
references, dispatch `destroyed` with `getSettings()`. The system-theme
media-query listener is not touched. -/
def destroy (st : ControllerState) : ControllerState :=
  let st1 := { st with
    themeEl := if st.themeRef then removeListener st.themeEl ListenerRef.methodSetTheme
      else st.themeEl }
  let st2 := { st1 with
    fontEl := if st1.fontRef then removeListener st1.fontEl ListenerRef.methodSetFont
      else st1.fontEl }
  let st3 := { st2 with
    fontSizeEl := if st2.fontSizeRef then
      removeListener st2.fontSizeEl ListenerRef.methodSetFontSize else st2.fontSizeEl }
  let st4 := { st3 with themeRef := false, fontRef := false, fontSizeRef := false }
  dispatchEvent st4 (Event.destroyed st4.settings)

/-- A `change` DOM event on the theme control element: the element's
`value` becomes `v`, then every registered change listener runs; the
arrow handler registered by `setupEventListeners` calls
`setTheme(e.target.value)`. -/
def fireThemeChange (st : ControllerState) (v : String) : ControllerState :=
  match st.themeEl with
  | some e =>
    let st1 := { st with themeEl := some { e with value := v } }
    if ListenerRef.arrowTheme ∈ e.listeners then setTheme st1 v else st1
  | none => st

/-- The configuration the constructor builds when no options are given. -/
def defaultConfig : Config :=
  { storagePfx := "theme-font-toggle", defaultTheme := "light", defaultFont := "system",
    defaultFontSize := "medium", autoDetectSystemTheme := true }

/-- An available, empty store. -/
def emptyStore : Store := { available := true, data := [] }

/-- A store whose every access throws. -/
def downStore : Store := { available := false, data := [] }

/-- A fresh document with no data attributes set. -/
def freshDoc : Doc := { dataTheme := none, dataFont := none, dataFontSize := none }

/-- A theme select element showing `light`, with no listeners yet. -/
def themeControl : DomElement := { value := "light", listeners := [] }

/-- A controller constructed with the default configuration, an available
empty store, and only a theme control present on the page. -/
def demoState : ControllerState :=
  setup defaultConfig emptyStore freshDoc (some themeControl) none none

/-- The demo controller after `setTheme('auto')`. -/
def autoState : ControllerState :=
  setTheme demoState "auto"

end ThemeFontToggle

namespace ContentScript

/-- The page document as the content script sees it: the three data
attributes and whether the `theme-toggle-styles` element was injected. -/
structure PageDoc where
  dataTheme : Option String
  dataFont : Option String
  dataFontSize : Option String
  stylesInjected : Bool
deriving DecidableEq, Repr

/-- Content-script `applyTheme`: set `data-theme` and inject the style
element when absent. -/
def applyTheme (d : PageDoc) (v : String) : PageDoc :=
  { d with dataTheme := some v, stylesInjected := true }

/-- Content-script `applyFont`: set `data-font`. -/
def applyFont (d : PageDoc) (v : String) : PageDoc :=
  { d with dataFont := some v }

/-- Content-script `applyFontSize`: set `data-font-size`. -/
def applyFontSize (d : PageDoc) (v : String) : PageDoc :=
  { d with dataFontSize := some v }

/-- The `settings` object an `applySettings` message may carry; each
field may be absent. -/
structure Settings where
  theme : Option String
  font : Option String
  fontSize : Option String
deriving DecidableEq, Repr

/-- An inbound runtime message: the `action` tag plus the optional
payload fields the listener reads. -/
structure Message where
  action : String
  theme : Option String
  font : Option String
  fontSize : Option String
  settings : Option Settings
deriving DecidableEq, Repr

/-- The acknowledgment passed to `sendResponse`. -/
structure Response where
  success : Bool
  error : Option String
deriving DecidableEq, Repr

/-- Reading a possibly-undefined field as a string (JavaScript coerces
`undefined` passed to `setAttribute` to the string `undefined`). -/
def jsString : Option String → String
  | some s => s
  | none => "undefined"

/-- JavaScript truthiness of a nullable string: only `undefined`/`null`
and the empty string are falsy. -/
def truthy : Option String → Bool
  | some s => s != ""
  | none => false

/-- The `chrome.runtime.onMessage` listener: switch on `message.action`;
the four recognized actions apply and acknowledge `{success: true}`; the
default branch acknowledges `{success: false, error: 'Unknown action'}`
without touching the page. -/
def handleMessage (d : PageDoc) (m : Message) : PageDoc × Response :=
  if m.action = "setTheme" then
    (applyTheme d (jsString m.theme), { success := true, error := none })
  else if m.action = "setFont" then
    (applyFont d (jsString m.font), { success := true, error := none })
  else if m.action = "setFontSize" then
    (applyFontSize d (jsString m.fontSize), { success := true, error := none })
  else if m.action = "applySettings" then
    match m.settings with
    | some s =>
      let d1 := if truthy s.theme then applyTheme d (jsString s.theme) else d
      let d2 := if truthy s.font then applyFont d1 (jsString s.font) else d1
      let d3 := if truthy s.fontSize then applyFontSize d2 (jsString s.fontSize) else d2
      (d3, { success := true, error := none })
    | none => (d, { success := true, error := none })
  else
    (d, { success := false, error := some "Unknown action" })

/-- A fresh page with no data attributes and no injected styles. -/
def freshPage : PageDoc :=
  { dataTheme := none, dataFont := none, dataFontSize := none, stylesInjected := false }

/-- A message with an unrecognized action tag. -/
def unknownMsg : Message :=
  { action := "toggleAll", theme := none, font := none, fontSize := none, settings := none }

/-- An `applySettings` message carrying the settings object `s`. -/
def applySettingsMsg (s : Settings) : Message :=
  { action := "applySettings", theme := none, font := none, fontSize := none,
    settings := some s }

/-- A settings object whose theme field is present but empty. -/
def emptyThemeSettings : Settings :=
  { theme := some "", font := none, fontSize := none }

/-- A settings object carrying only `theme: dark`. -/
def darkOnlySettings : Settings :=
  { theme := some "dark", font := none, fontSize := none }

end ContentScript

namespace ThemeFontToggle

/-- An association-list store read finds the most recent write. -/
theorem lookup_cons_self (k v : String) (l : List (String × String)) :
    List.lookup k ((k, v) :: l) = some v := by
  simp [List.lookup]

/-- After resyncing a present control to `v`, its displayed value is `v`. -/
theorem updateValue_value (el : Option DomElement) (v : String) (a : DomElement)
    (h : updateValue el v = some a) : a.value = v := by
  cases el with
  | none => simp [updateValue] at h
  | some e =>
    simp only [updateValue] at h
    split at h
    · injection h with h1
      subst h1
      rfl
    · next hcond =>
      injection h with h1
      subst h1
      exact not_not.mp hcond

/-- Claim C1: after `setDimension(d, v)` with the store available,
`getDimension(d) = v`, `v` sits in the store under the dimension's key,
a bound control displays `v`, exactly one `<dim>Changed` event was
appended carrying the full current triple, and the other two dimensions
of the in-memory triple are unchanged. -/
theorem C1_setDimension_effects (st : ControllerState) (d : Dimension) (v : String) :
    getDimension (setDimension st d v) d = v ∧
    (st.store.available = true →
      (setDimension st d v).store.data.lookup (storageKeys st.config d) = some v) ∧
    (∀ w, boundControlValue (setDimension st d v) d = some w → w = v) ∧
    (setDimension st d v).events
      = st.events ++ [changedEvent d (setDimension st d v).settings] ∧
    (∀ e, e ≠ d → getDimension (setDimension st d v) e = getDimension st e) := by
  cases d with
  | theme =>
    refine ⟨?_, ?_, ?_, ?_, ?_⟩
    · simp [setDimension, setTheme, dispatchEvent, updateThemeSelector, applyTheme,
        setStoredValue, Store.setItem, getDimension]
    · intro h
      simp [setDimension, setTheme, dispatchEvent, updateThemeSelector, applyTheme,
        setStoredValue, Store.setItem, h, lookup_cons_self]
    · intro w hw
      by_cases hr : st.themeRef <;>
        simp [setDimension, setTheme, dispatchEvent, updateThemeSelector, applyTheme,
          setStoredValue, Store.setItem, boundControlValue, hr] at hw
      obtain ⟨a, ha, haw⟩ := hw
      rw [← haw]
      exact updateValue_value _ _ _ ha
    · simp [setDimension, setTheme, dispatchEvent, updateThemeSelector, applyTheme,
        setStoredValue, Store.setItem, changedEvent, ControllerState.settings]
    · intro e he
      cases e with
      | theme => exact absurd rfl he
      | font =>
        simp [setDimension, setTheme, dispatchEvent, updateThemeSelector, applyTheme,
          setStoredValue, Store.setItem, getDimension]
      | fontSize =>
        simp [setDimension, setTheme, dispatchEvent, updateThemeSelector, applyTheme,
          setStoredValue, Store.setItem, getDimension]
  | font =>
    refine ⟨?_, ?_, ?_, ?_, ?_⟩
    · simp [setDimension, setFont, dispatchEvent, updateFontSelector, applyFont,
        setStoredValue, Store.setItem, getDimension]
    · intro h
      simp [setDimension, setFont, dispatchEvent, updateFontSelector, applyFont,
        setStoredValue, Store.setItem, h, lookup_cons_self]
    · intro w hw
      by_cases hr : st.fontRef <;>
        simp [setDimension, setFont, dispatchEvent, updateFontSelector, applyFont,
          setStoredValue, Store.setItem, boundControlValue, hr] at hw
      obtain ⟨a, ha, haw⟩ := hw
      rw [← haw]
      exact updateValue_value _ _ _ ha
    · simp [setDimension, setFont, dispatchEvent, updateFontSelector, applyFont,
        setStoredValue, Store.setItem, changedEvent, ControllerState.settings]
    · intro e he
      cases e with
      | font => exact absurd rfl he
      | theme =>
        simp [setDimension, setFont, dispatchEvent, updateFontSelector, applyFont,
          setStoredValue, Store.setItem, getDimension]
      | fontSize =>
        simp [setDimension, setFont, dispatchEvent, updateFontSelector, applyFont,
          setStoredValue, Store.setItem, getDimension]
  | fontSize =>
    refine ⟨?_, ?_, ?_, ?_, ?_⟩
    · simp [setDimension, setFontSize, dispatchEvent, updateFontSizeSelector, applyFontSize,
        setStoredValue, Store.setItem, getDimension]
    · intro h
      simp [setDimension, setFontSize, dispatchEvent, updateFontSizeSelector, applyFontSize,
        setStoredValue, Store.setItem, h, lookup_cons_self]
    · intro w hw
      by_cases hr : st.fontSizeRef <;>
        simp [setDimension, setFontSize, dispatchEvent, updateFontSizeSelector, applyFontSize,
          setStoredValue, Store.setItem, boundControlValue, hr] at hw
      obtain ⟨a, ha, haw⟩ := hw
      rw [← haw]
      exact updateValue_value _ _ _ ha
    · simp [setDimension, setFontSize, dispatchEvent, updateFontSizeSelector, applyFontSize,
        setStoredValue, Store.setItem, changedEvent, ControllerState.settings]
    · intro e he
      cases e with
      | fontSize => exact absurd rfl he
      | theme =>
        simp [setDimension, setFontSize, dispatchEvent, updateFontSizeSelector, applyFontSize,
          setStoredValue, Store.setItem, getDimension]
      | font =>
        simp [setDimension, setFontSize, dispatchEvent, updateFontSizeSelector, applyFontSize,
          setStoredValue, Store.setItem, getDimension]

/-- Witness for C1: on the demo controller (available store), setting the
theme to dark yields `getDimension(theme) = dark` and a store entry
`theme-font-toggle-theme -> dark`. -/
theorem C1_setDimension_effects_witness :
    getDimension (setDimension demoState Dimension.theme "dark") Dimension.theme = "dark" ∧
    (setDimension demoState Dimension.theme "dark").store.data.lookup
      (storageKeys demoState.config Dimension.theme) = some "dark" :=
  ⟨(C1_setDimension_effects demoState Dimension.theme "dark").1,
   (C1_setDimension_effects demoState Dimension.theme "dark").2.1 rfl⟩

/-- Claim C2: at construction each dimension of the initial triple equals
the stored value when the store yields a present, non-empty string, and
the configured default otherwise; when the store is unavailable all
three dimensions equal the configured defaults. -/
theorem C2_initial_triple (cfg : Config) (s : Store) (doc0 : Doc)
    (tEl fEl sEl : Option DomElement) (d : Dimension) :
    (∀ v, getStoredValue cfg s d = some v → v ≠ "" →
      getDimension (setup cfg s doc0 tEl fEl sEl) d = v) ∧
    ((getStoredValue cfg s d = none ∨ getStoredValue cfg s d = some "") →
      getDimension (setup cfg s doc0 tEl fEl sEl) d = defaultFor cfg d) ∧
    (s.available = false →
      (setup cfg s doc0 tEl fEl sEl).settings
        = { theme := cfg.defaultTheme, font := cfg.defaultFont,
            fontSize := cfg.defaultFontSize }) := by
  refine ⟨?_, ?_, ?_⟩
  · intro v hv hne
    cases d <;>
      simp [setup, applySettings, setupEventListeners, dispatchEvent, applyTheme, applyFont,
        applyFontSize, updateThemeSelector, updateFontSelector, updateFontSizeSelector,
        loadPreferences, getDimension, hv, jsOr, hne]
  · intro hd
    cases hd with
    | inl h0 =>
      cases d <;>
        simp [setup, applySettings, setupEventListeners, dispatchEvent, applyTheme, applyFont,
          applyFontSize, updateThemeSelector, updateFontSelector, updateFontSizeSelector,
          loadPreferences, getDimension, defaultFor, h0, jsOr]
    | inr h0 =>
      cases d <;>
        simp [setup, applySettings, setupEventListeners, dispatchEvent, applyTheme, applyFont,
          applyFontSize, updateThemeSelector, updateFontSelector, updateFontSizeSelector,
          loadPreferences, getDimension, defaultFor, h0, jsOr]
  · intro hs
    simp [setup, applySettings, setupEventListeners, dispatchEvent, applyTheme, applyFont,
      applyFontSize, updateThemeSelector, updateFontSelector, updateFontSizeSelector,
      loadPreferences, getStoredValue, Store.getItem, hs, jsOr, ControllerState.settings]

/-- Witness for C2: constructing against the unavailable store yields the
configured defaults on every dimension. -/
theorem C2_initial_triple_witness :
    (setup defaultConfig downStore freshDoc none none none).settings
      = { theme := defaultConfig.defaultTheme, font := defaultConfig.defaultFont,
          fontSize := defaultConfig.defaultFontSize } :=
  (C2_initial_triple defaultConfig downStore freshDoc none none none Dimension.theme).2.2 rfl

/-- Claim C3: `reset()` leaves `getSettings()` at the configured defaults
and appends exactly four events, in order: `themeChanged`, `fontChanged`,
`fontSizeChanged`, `reset`. -/
theorem C3_reset (st : ControllerState) :
    (reset st).settings
      = { theme := st.config.defaultTheme, font := st.config.defaultFont,
          fontSize := st.config.defaultFontSize } ∧
    (reset st).events = st.events ++
      [Event.themeChanged
         (Triple.mk st.config.defaultTheme st.currentFont st.currentFontSize),
       Event.fontChanged
         (Triple.mk st.config.defaultTheme st.config.defaultFont st.currentFontSize),
       Event.fontSizeChanged
         (Triple.mk st.config.defaultTheme st.config.defaultFont st.config.defaultFontSize),
       Event.reset
         (Triple.mk st.config.defaultTheme st.config.defaultFont st.config.defaultFontSize)]
      := by
  constructor <;>
    simp [reset, setTheme, setFont, setFontSize, dispatchEvent, updateThemeSelector,
      updateFontSelector, updateFontSizeSelector, applyTheme, applyFont, applyFontSize,
      setStoredValue, ControllerState.settings]

end ThemeFontToggle

namespace ThemeFontToggle

/-- Claim C4: while the system-theme listener is registered, a system
theme-preference signal re-applies the theme if and only if the current
theme value is exactly `auto`; the re-application touches only the theme
dimension and emits no notification. -/
theorem C4_system_signal (st : ControllerState) (h : st.systemListenerActive = true) :
    (st.currentTheme = "auto" →
      (systemThemeSignal st).applyLog = st.applyLog ++ [(Dimension.theme, "auto")] ∧
      (systemThemeSignal st).doc.dataTheme = some "auto" ∧
      (systemThemeSignal st).doc.dataFont = st.doc.dataFont ∧
      (systemThemeSignal st).doc.dataFontSize = st.doc.dataFontSize ∧
      (systemThemeSignal st).events = st.events ∧
      (systemThemeSignal st).settings = st.settings ∧
      (systemThemeSignal st).store = st.store) ∧
    (st.currentTheme ≠ "auto" → systemThemeSignal st = st) := by
  constructor
  · intro ha
    simp [systemThemeSignal, h, ha, applyTheme, ControllerState.settings]
  · intro ha
    simp [systemThemeSignal, h, ha]

/-- Witness for C4: with the demo controller set to `auto`, the signal
re-applies the theme and dispatches nothing. -/
theorem C4_system_signal_witness :
    (systemThemeSignal autoState).events = autoState.events ∧
    (systemThemeSignal autoState).applyLog
      = autoState.applyLog ++ [(Dimension.theme, "auto")] :=
  ⟨((C4_system_signal autoState rfl).1 rfl).2.2.2.2.1,
   ((C4_system_signal autoState rfl).1 rfl).1⟩

/-- Claim C7 counterexample: with the default namespace, the fontSize key
the constructor builds is `theme-font-toggle-font-size`, not the claimed
`theme-font-toggle-fontSize`. -/
theorem C7_counterexample :
    storageKeys defaultConfig Dimension.fontSize = "theme-font-toggle-font-size" ∧
    storageKeys defaultConfig Dimension.fontSize ≠ "theme-font-toggle-fontSize" := by
  constructor
  · rfl
  · decide

/-- Claim C7 (amended): for every configured namespace `p`, the three
storage keys are `p ++ "-theme"`, `p ++ "-font"` and `p ++ "-font-size"`. -/
theorem C7_storage_keys (cfg : Config) :
    storageKeys cfg Dimension.theme = cfg.storagePfx ++ "-theme" ∧
    storageKeys cfg Dimension.font = cfg.storagePfx ++ "-font" ∧
    storageKeys cfg Dimension.fontSize = cfg.storagePfx ++ "-font-size" :=
  ⟨rfl, rfl, rfl⟩

/-- Claim C8: after `setDimension(theme, dark)` against an available
store, a fresh controller constructed with the same configuration reads
an initial theme of `dark` (no default fallback). -/
theorem C8_round_trip (st : ControllerState) (doc0 : Doc)
    (tEl fEl sEl : Option DomElement) (h : st.store.available = true) :
    getDimension
      (setup st.config (setDimension st Dimension.theme "dark").store doc0 tEl fEl sEl)
      Dimension.theme = "dark" := by
  simp [setup, applySettings, setupEventListeners, dispatchEvent, applyTheme, applyFont,
    applyFontSize, updateThemeSelector, updateFontSelector, updateFontSizeSelector,
    loadPreferences, getDimension, setDimension, setTheme, setStoredValue, Store.setItem,
    getStoredValue, Store.getItem, h, jsOr, lookup_cons_self]

/-- Witness for C8 at the demo controller. -/
theorem C8_round_trip_witness :
    getDimension
      (setup demoState.config (setDimension demoState Dimension.theme "dark").store
        freshDoc none none none)
      Dimension.theme = "dark" :=
  C8_round_trip demoState freshDoc none none none rfl

/-- Claim C10: `setDimension` performs no change detection: setting a
dimension to its current value still writes the store, still invokes the
StyleApplicator, and still emits the `<dim>Changed` notification. -/
theorem C10_redundant_set (st : ControllerState) (d : Dimension) (v : String)
    (hv : getDimension st d = v) :
    (st.store.available = true →
      (setDimension st d v).store.data.lookup (storageKeys st.config d) = some v) ∧
    (setDimension st d v).applyLog = st.applyLog ++ [(d, v)] ∧
    (setDimension st d v).events = st.events ++ [changedEvent d st.settings] := by
  cases d with
  | theme =>
    simp only [getDimension] at hv
    subst hv
    refine ⟨fun h => ?_, ?_, ?_⟩
    · simp [setDimension, setTheme, dispatchEvent, updateThemeSelector, applyTheme,
        setStoredValue, Store.setItem, h, lookup_cons_self]
    · simp [setDimension, setTheme, dispatchEvent, updateThemeSelector, applyTheme,
        setStoredValue, Store.setItem]
    · simp [setDimension, setTheme, dispatchEvent, updateThemeSelector, applyTheme,
        setStoredValue, Store.setItem, changedEvent, ControllerState.settings]
  | font =>
    simp only [getDimension] at hv
    subst hv
    refine ⟨fun h => ?_, ?_, ?_⟩
    · simp [setDimension, setFont, dispatchEvent, updateFontSelector, applyFont,
        setStoredValue, Store.setItem, h, lookup_cons_self]
    · simp [setDimension, setFont, dispatchEvent, updateFontSelector, applyFont,
        setStoredValue, Store.setItem]
    · simp [setDimension, setFont, dispatchEvent, updateFontSelector, applyFont,
        setStoredValue, Store.setItem, changedEvent, ControllerState.settings]
  | fontSize =>
    simp only [getDimension] at hv
    subst hv
    refine ⟨fun h => ?_, ?_, ?_⟩
    · simp [setDimension, setFontSize, dispatchEvent, updateFontSizeSelector, applyFontSize,
        setStoredValue, Store.setItem, h, lookup_cons_self]
    · simp [setDimension, setFontSize, dispatchEvent, updateFontSizeSelector, applyFontSize,
        setStoredValue, Store.setItem]
    · simp [setDimension, setFontSize, dispatchEvent, updateFontSizeSelector, applyFontSize,
        setStoredValue, Store.setItem, changedEvent, ControllerState.settings]

/-- Witness for C10: re-setting the demo controller's theme to its
current value `light` still emits `themeChanged`. -/
theorem C10_redundant_set_witness :
    (setDimension demoState Dimension.theme "light").events
      = demoState.events ++ [changedEvent Dimension.theme demoState.settings] :=
  (C10_redundant_set demoState Dimension.theme "light" rfl).2.2

/-- Claim C9 (code bug): `destroy()` dispatches the `destroyed`
notification with the current triple, but the arrow change listener
registered by `setupEventListeners` is still attached afterwards
(`removeEventListener` was handed the never-registered bound method) and
the system-theme listener is still subscribed, so a change signal on the
previously bound control still triggers `setTheme`. -/
theorem C9_destroy_listener_leak :
    (destroy demoState).events
      = demoState.events ++ [Event.destroyed demoState.settings] ∧
    (destroy demoState).themeEl.map DomElement.listeners
      = some [ListenerRef.arrowTheme] ∧
    (destroy demoState).systemListenerActive = true ∧
    getDimension (fireThemeChange (destroy demoState) "dark") Dimension.theme = "dark" ∧
    (fireThemeChange (destroy demoState) "dark").events
      = (destroy demoState).events
        ++ [Event.themeChanged (Triple.mk "dark" "system" "medium")] := by
  refine ⟨?_, ?_, ?_, ?_, ?_⟩ <;> decide

end ThemeFontToggle

namespace ContentScript

/-- Claim C5 counterexample: an unrecognized action is acknowledged with
the error string `Unknown action` (capital U), not the claimed
`unknown action`. -/
theorem C5_counterexample :
    (handleMessage freshPage unknownMsg).2
      = { success := false, error := some "Unknown action" } ∧
    (handleMessage freshPage unknownMsg).2
      ≠ { success := false, error := some "unknown action" } := by
  constructor
  · rfl
  · decide

/-- Claim C5 (amended): every message whose action tag is not one of the
four recognized ones is acknowledged `{success: false, error: "Unknown
action"}` with no mutation of the receiving page, and every recognized
tag is acknowledged with `success: true`. -/
theorem C5_unknown_action (d : PageDoc) (m : Message) :
    (m.action ≠ "setTheme" → m.action ≠ "setFont" → m.action ≠ "setFontSize" →
      m.action ≠ "applySettings" →
      handleMessage d m = (d, { success := false, error := some "Unknown action" })) ∧
    ((m.action = "setTheme" ∨ m.action = "setFont" ∨ m.action = "setFontSize" ∨
      m.action = "applySettings") → (handleMessage d m).2.success = true) := by
  constructor
  · intro h1 h2 h3 h4
    simp [handleMessage, h1, h2, h3, h4]
  · intro hm
    rcases hm with hm | hm | hm | hm
    · simp [handleMessage, hm]
    · simp [handleMessage, hm]
    · simp [handleMessage, hm]
    · cases hs : m.settings with
      | none => simp [handleMessage, hm, hs]
      | some s => simp [handleMessage, hm, hs]

/-- Witness for C5: the concrete unknown message is acknowledged with the
structured error and the page untouched. -/
theorem C5_unknown_action_witness :
    handleMessage freshPage unknownMsg
      = (freshPage, { success := false, error := some "Unknown action" }) :=
  (C5_unknown_action freshPage unknownMsg).1 (by decide) (by decide) (by decide) (by decide)

/-- Claim C6 counterexample: an `applySettings` message whose theme field
is present but empty applies nothing — the page's theme attribute is not
set to the carried value. -/
theorem C6_counterexample :
    (applySettingsMsg emptyThemeSettings).settings = some emptyThemeSettings ∧
    emptyThemeSettings.theme = some "" ∧
    (handleMessage freshPage (applySettingsMsg emptyThemeSettings)).1.dataTheme ≠ some "" := by
  refine ⟨rfl, rfl, ?_⟩
  decide

/-- Claim C6 (amended): for an `applySettings` message carrying a
settings object, each field present with a non-empty value is applied
independently; a field absent or carrying the empty string leaves that
dimension of the page untouched; the acknowledgment is `success: true`. -/
theorem C6_applySettings (d : PageDoc) (m : Message) (s : Settings)
    (ha : m.action = "applySettings") (hs : m.settings = some s) :
    (∀ v, s.theme = some v → v ≠ "" → (handleMessage d m).1.dataTheme = some v) ∧
    ((s.theme = none ∨ s.theme = some "") →
      (handleMessage d m).1.dataTheme = d.dataTheme) ∧
    (∀ v, s.font = some v → v ≠ "" → (handleMessage d m).1.dataFont = some v) ∧
    ((s.font = none ∨ s.font = some "") →
      (handleMessage d m).1.dataFont = d.dataFont) ∧
    (∀ v, s.fontSize = some v → v ≠ "" → (handleMessage d m).1.dataFontSize = some v) ∧
    ((s.fontSize = none ∨ s.fontSize = some "") →
      (handleMessage d m).1.dataFontSize = d.dataFontSize) ∧
    (handleMessage d m).2 = { success := true, error := none } := by
  refine ⟨?_, ?_, ?_, ?_, ?_, ?_, ?_⟩
  · intro v hv hne
    have ht : truthy (some v) = true := by simp [truthy, hne]
    simp [handleMessage, ha, hs, ht, hv, jsString, applyTheme, applyFont, applyFontSize,
      apply_ite PageDoc.dataTheme, apply_ite PageDoc.dataFont, apply_ite PageDoc.dataFontSize]
  · intro hv
    have ht : truthy s.theme = false := by
      rcases hv with hv | hv <;> simp [truthy, hv]
    simp [handleMessage, ha, hs, ht, jsString, applyTheme, applyFont, applyFontSize,
      apply_ite PageDoc.dataTheme, apply_ite PageDoc.dataFont, apply_ite PageDoc.dataFontSize]
  · intro v hv hne
    have hf : truthy (some v) = true := by simp [truthy, hne]
    simp [handleMessage, ha, hs, hf, hv, jsString, applyTheme, applyFont, applyFontSize,
      apply_ite PageDoc.dataTheme, apply_ite PageDoc.dataFont, apply_ite PageDoc.dataFontSize]
  · intro hv
    have hf : truthy s.font = false := by
      rcases hv with hv | hv <;> simp [truthy, hv]
    simp [handleMessage, ha, hs, hf, jsString, applyTheme, applyFont, applyFontSize,
      apply_ite PageDoc.dataTheme, apply_ite PageDoc.dataFont, apply_ite PageDoc.dataFontSize]
  · intro v hv hne
    have hz : truthy (some v) = true := by simp [truthy, hne]
    simp [handleMessage, ha, hs, hz, hv, jsString, applyTheme, applyFont, applyFontSize,
      apply_ite PageDoc.dataTheme, apply_ite PageDoc.dataFont, apply_ite PageDoc.dataFontSize]
  · intro hv
    have hz : truthy s.fontSize = false := by
      rcases hv with hv | hv <;> simp [truthy, hv]
    simp [handleMessage, ha, hs, hz, jsString, applyTheme, applyFont, applyFontSize,
      apply_ite PageDoc.dataTheme, apply_ite PageDoc.dataFont, apply_ite PageDoc.dataFontSize]
  · simp [handleMessage, ha, hs]

/-- Witness for C6: `applySettings` with only `theme: dark` applies the
theme and leaves font and fontSize untouched on the target page. -/
theorem C6_applySettings_witness :
    (handleMessage freshPage (applySettingsMsg darkOnlySettings)).1.dataTheme
      = some "dark" ∧
    (handleMessage freshPage (applySettingsMsg darkOnlySettings)).1.dataFont
      = freshPage.dataFont ∧
    (handleMessage freshPage (applySettingsMsg darkOnlySettings)).1.dataFontSize
      = freshPage.dataFontSize :=
  ⟨(C6_applySettings freshPage (applySettingsMsg darkOnlySettings) darkOnlySettings
      rfl rfl).1 "dark" rfl (by decide),
   (C6_applySettings freshPage (applySettingsMsg darkOnlySettings) darkOnlySettings
      rfl rfl).2.2.2.1 (Or.inl rfl),
   (C6_applySettings freshPage (applySettingsMsg darkOnlySettings) darkOnlySettings
      rfl rfl).2.2.2.2.2.1 (Or.inl rfl)⟩

end ContentScript
